import Mathlib

/-!
Shallow embedding of the PvP matchmaking and match-session engine of the
predprof backend: `app/utils/elo.py`, `app/utils/pvp_manager.py` and the
parts of `app/routers/pvp.py` that drive a match (round reset, answer
collection, round scoring).  Python float arithmetic is idealised as exact
real arithmetic; Python's builtin `round` (banker's rounding, half to even)
is modelled explicitly.  Database and websocket I/O is modelled as explicit
state passing: persisted user ratings and pvp aggregates live in a `World`
record, broadcasts are modelled as returned message values.
-/

/-! ## RatingEngine: app/utils/elo.py -/

/-- Python's builtin `round`: nearest integer, ties to even. -/
noncomputable def pythonRound (x : ℝ) : ℤ :=
  if Int.fract x = 1 / 2 then (if Even ⌊x⌋ then ⌊x⌋ else ⌊x⌋ + 1) else round x

/-- `calculate_win_probability` (elo.py line 2): `1 / (1 + 10 ** ((b - a) / 400))`. -/
noncomputable def calculate_win_probability (player_rating opponent_rating : ℤ) : ℝ :=
  1 / (1 + (10 : ℝ) ^ ((((opponent_rating - player_rating : ℤ) : ℝ)) / 400))

/-- `calculate_elo_change` (elo.py line 7): `int(round(k * (score - expected)))`. -/
noncomputable def calculate_elo_change (player_rating opponent_rating : ℤ) (score : ℝ)
    (k_factor : ℤ := 32) : ℤ :=
  pythonRound ((k_factor : ℝ) * (score - calculate_win_probability player_rating opponent_rating))

/-- `update_ratings_after_match` (elo.py line 13).  The `raise ValueError` on an
outcome outside the three rated ones is modelled by `Except.error`. -/
noncomputable def update_ratings_after_match (p1_rating p2_rating : ℤ) (outcome : String) :
    Except String (ℤ × ℤ × ℤ × ℤ) :=
  let scores : Option (ℝ × ℝ) :=
    if outcome = "p1_win" then some (1.0, 0.0)
    else if outcome = "p2_win" then some (0.0, 1.0)
    else if outcome = "draw" then some (0.5, 0.5)
    else none
  match scores with
  | none => .error ("Invalid outcome: " ++ outcome)
  | some (p1_score, p2_score) =>
    let p1_change := calculate_elo_change p1_rating p2_rating p1_score
    let p2_change := calculate_elo_change p2_rating p1_rating p2_score
    .ok (p1_rating + p1_change, p2_rating + p2_change, p1_change, p2_change)

/-! ## Data model: app/utils/pvp_manager.py and app/data/models.py -/

/-- `PlayerSession` (pvp_manager.py line 19).  The websocket handle is pure I/O
and is not part of the model. -/
structure PlayerSession where
  user_id : String
  rating : ℤ
  answer : Option String := none
  submission_count : ℕ := 0
  counted_submission_id : Option String := none
  connected : Bool := true
deriving Repr, DecidableEq

/-- `PvpMatchState` (models.py line 91). -/
inductive PvpMatchState
  | waiting
  | active
  | finished
  | canceled
  | technical_error
deriving Repr, DecidableEq

/-- The fields of the persisted `PvpMatch` document (models.py line 106) that
the termination path reads or writes.  `outcome` stores the string value of the
`PvpOutcome` enum; `finished_at` stores an abstract timestamp. -/
structure PvpMatchModel where
  state : PvpMatchState
  outcome : Option String := none
  finished_at : Option ℕ := none
  p1_rating_delta : ℤ := 0
  p2_rating_delta : ℤ := 0
deriving Repr, DecidableEq

/-- `MatchSession` (pvp_manager.py line 30), restricted to the fields the
verified operations touch (`task` and `start_time` are not needed). -/
structure MatchSession where
  match_id : String
  p1_session : PlayerSession
  p2_session : Option PlayerSession := none
  match_model : Option PvpMatchModel := none
deriving Repr, DecidableEq

/-- The repository's `MatchSession.ANSWER_CHANGE_ALLOWED` class constant
(pvp_manager.py line 33). -/
def ANSWER_CHANGE_ALLOWED : Bool := true

/-- The pvp half of a `UserAggregateStats` document, as mutated by
`MatchSession._update_pvp_aggregate` (pvp_manager.py line 43). -/
structure PvpAgg where
  matches_played : ℕ := 0  -- the source field is named `matches`, a Lean keyword
  wins : ℕ := 0
  losses : ℕ := 0
  draws : ℕ := 0
deriving Repr, DecidableEq

/-- The persistent state outside the session: `User.elo_rating` per user id and
the pvp aggregate per user id (absent documents are `none`). -/
structure World where
  users : String → Option ℤ
  aggs : String → Option PvpAgg

/-- `p1_user = await User.find_one(...); if p1_user: p1_user.elo_rating = v`:
the rating is written only when the user document exists. -/
def setUserRating (users : String → Option ℤ) (uid : String) (v : ℤ) :
    String → Option ℤ :=
  fun u => if u = uid then (users uid).map (fun _ => v) else users u

/-- `MatchSession._update_pvp_aggregate` (pvp_manager.py line 43): fetch or
create the aggregate, bump `matches` and the field named by `result`. -/
def update_pvp_aggregate (aggs : String → Option PvpAgg) (uid : String) (result : String) :
    String → Option PvpAgg :=
  let agg := (aggs uid).getD {}
  let agg :=
    { agg with
      matches_played := agg.matches_played + 1
      wins := if result = "win" then agg.wins + 1 else agg.wins
      losses := if result = "loss" then agg.losses + 1 else agg.losses
      draws := if result = "draw" then agg.draws + 1 else agg.draws }
  fun u => if u = uid then some agg else aggs u

/-! ## Answer submission: MatchSession.handle_answer_submission -/

/-- Line 94 of pvp_manager.py:
`session = self.p1_session if player_id == self.p1_session.user_id else self.p2_session`.
Any `player_id` other than p1's resolves to the p2 slot. -/
def resolve_session (s : MatchSession) (player_id : String) : Option PlayerSession :=
  if player_id == s.p1_session.user_id then some s.p1_session else s.p2_session

/-- The per-session body of `handle_answer_submission` (pvp_manager.py
lines 99-118), acting on the resolved session. -/
def submit_to_session (answer_change_allowed : Bool) (sess : PlayerSession)
    (answer submission_id : String) : PlayerSession × Bool :=
  if answer_change_allowed then
    if sess.counted_submission_id = some submission_id then
      ({ sess with answer := some answer }, true)
    else if sess.answer = none then
      ({ sess with
          answer := some answer
          counted_submission_id := some submission_id
          submission_count := sess.submission_count + 1 }, true)
    else
      ({ sess with
          answer := some answer
          counted_submission_id := some submission_id }, true)
  else
    if sess.counted_submission_id ≠ none then (sess, false)
    else
      ({ sess with
          answer := some answer
          counted_submission_id := some submission_id
          submission_count := sess.submission_count + 1 }, true)

/-- `MatchSession.handle_answer_submission` (pvp_manager.py line 93),
parametrised by the `ANSWER_CHANGE_ALLOWED` policy constant.  Returns the
updated session object together with the `counted` flag. -/
def handle_answer_submission (answer_change_allowed : Bool) (s : MatchSession)
    (player_id answer submission_id : String) : MatchSession × Bool :=
  let isP1 := player_id == s.p1_session.user_id
  match (if isP1 then some s.p1_session else s.p2_session) with
  | none => (s, false)
  | some sess =>
    if sess.connected then
      let (sess', counted) := submit_to_session answer_change_allowed sess answer submission_id
      (if isP1 then { s with p1_session := sess' } else { s with p2_session := some sess' },
       counted)
    else (s, false)

/-- The `state_update` payload built by `MatchSession.broadcast_state`
(pvp_manager.py line 128). -/
structure StateUpdate where
  p1_user_id : String
  p1_rating : ℤ
  p1_answered : Bool
  p2_user_id : Option String
  p2_rating : Option ℤ
  p2_answered : Bool
deriving Repr, DecidableEq

/-- `MatchSession.broadcast_state` (pvp_manager.py line 128): `answered` is
`answer is not None`. -/
def broadcast_state (s : MatchSession) : StateUpdate :=
  { p1_user_id := s.p1_session.user_id
    p1_rating := s.p1_session.rating
    p1_answered := s.p1_session.answer.isSome
    p2_user_id := s.p2_session.map (fun p => p.user_id)
    p2_rating := s.p2_session.map (fun p => p.rating)
    p2_answered := (s.p2_session.map (fun p => p.answer.isSome)).getD false }

/-! ## Round loop fragments: app/routers/pvp.py run_game_cycle -/

/-- pvp.py lines 146-147: the start of a round sets both players' `answer`
to `None`.  (It does not touch `counted_submission_id`.) -/
def round_reset (s : MatchSession) : MatchSession :=
  { s with
    p1_session := { s.p1_session with answer := none }
    p2_session := s.p2_session.map (fun p => { p with answer := none }) }

/-- Truthiness of an `Optional[str]` in Python: `None` and `""` are falsy. -/
def pyTruthy : Option String → Bool
  | none => false
  | some a => !(a == "")

/-- The early-exit test of the answer-collection loop (pvp.py line 153):
`if match_session.p1_session.answer and match_session.p2_session.answer`.
The round loop only runs with p2 present; an absent p2 yields `false`. -/
def answers_early_exit (s : MatchSession) : Bool :=
  pyTruthy s.p1_session.answer && pyTruthy (s.p2_session.bind (fun p => p.answer))

/-- Python's `str.strip()`: remove leading and trailing whitespace.  (Defined
on the character list so that it evaluates by kernel reduction; `String.trim`
gets stuck on well-founded recursion.) -/
def py_strip (s : String) : String :=
  String.mk (((s.data.dropWhile Char.isWhitespace).reverse.dropWhile
    Char.isWhitespace).reverse)

/-- The `round_result` data computed in pvp.py lines 157-177. -/
structure RoundResult where
  p1_score : ℕ
  p2_score : ℕ
  p1_correct : Bool
  p2_correct : Bool
  correct_answer : Option String
deriving Repr, DecidableEq

/-- Round scoring, pvp.py lines 157-168:
`correct_ans = str(task.answer).strip() if task.answer is not None else None`;
a side is correct iff its answer and the task answer are both non-null and the
stripped player answer equals the stripped task answer; a correct side's score
is incremented. -/
def score_round (p1_score p2_score : ℕ) (p1_ans p2_ans task_answer : Option String) :
    RoundResult :=
  let correct_ans := task_answer.map (fun a => py_strip a)
  let p1_correct :=
    match p1_ans, correct_ans with
    | some a, some c => py_strip a == c
    | _, _ => false
  let p2_correct :=
    match p2_ans, correct_ans with
    | some a, some c => py_strip a == c
    | _, _ => false
  { p1_score := if p1_correct then p1_score + 1 else p1_score
    p2_score := if p2_correct then p2_score + 1 else p2_score
    p1_correct := p1_correct
    p2_correct := p2_correct
    correct_answer := correct_ans }

/-! ## Termination: MatchSession.finish_match (pvp_manager.py line 144) -/

/-- The `match_result` payload, p1 side. -/
structure P1Result where
  user_id : String
  old_rating : ℤ
  new_rating : ℤ
  delta : ℤ
deriving Repr, DecidableEq

/-- The `match_result` payload, p2 side (all fields null when p2 is absent). -/
structure P2Result where
  user_id : Option String
  old_rating : Option ℤ
  new_rating : Option ℤ
  delta : ℤ
deriving Repr, DecidableEq

/-- The `match_result` message broadcast and returned by `finish_match`. -/
structure MatchResult where
  outcome : String
  p1 : P1Result
  p2 : P2Result
deriving Repr, DecidableEq

/-- pvp_manager.py line 150: the set of accepted outcome strings. -/
def allowedOutcomes : List String :=
  ["p1_win", "p2_win", "draw", "canceled", "technical_error"]

/-- The three outcomes that trigger rating application (pvp_manager.py
lines 164, 185, 203). -/
def ratedOutcomes : List String := ["p1_win", "p2_win", "draw"]

/-- pvp_manager.py lines 150-152: an outcome outside the allowed set is
replaced by the string "canceled". -/
def sanitizeOutcome (outcome : String) : String :=
  if allowedOutcomes.contains outcome then outcome else "canceled"

/-- pvp_manager.py line 147: `if self.match_model and self.match_model.state != active`. -/
def already_finished (s : MatchSession) : Bool :=
  match s.match_model with
  | some m => m.state != PvpMatchState.active
  | none => false

/-- The body of `MatchSession.finish_match` after the Elo computation
(pvp_manager.py lines 169-228): model save, conditional user-rating and
aggregate persistence, session rating update, result construction and
broadcast.  `outcome` is already sanitized; `new_p1`, `new_p2`, `p1_delta`,
`p2_delta` are the values produced at lines 158-167. -/
def finish_apply (s : MatchSession) (w : World) (now : ℕ) (outcome : String)
    (old_p1 : ℤ) (old_p2 : Option ℤ) (new_p1 new_p2 p1_delta p2_delta : ℤ) :
    MatchSession × World × Option MatchResult :=
  let model' := s.match_model.map (fun m =>
    { m with
      state :=
        if outcome == "canceled" then PvpMatchState.canceled
        else if outcome == "technical_error" then PvpMatchState.technical_error
        else PvpMatchState.finished
      outcome := if ratedOutcomes.contains outcome then some outcome else none
      finished_at := some now
      p1_rating_delta := p1_delta
      p2_rating_delta := if s.p2_session.isSome then p2_delta else 0 })
  let users' :=
    if ratedOutcomes.contains outcome then
      let u1 := setUserRating w.users s.p1_session.user_id new_p1
      match s.p2_session with
      | some p2 => setUserRating u1 p2.user_id new_p2
      | none => u1
    else w.users
  let p1_session' :=
    if ratedOutcomes.contains outcome then { s.p1_session with rating := new_p1 }
    else s.p1_session
  let p2_session' :=
    if ratedOutcomes.contains outcome then
      s.p2_session.map (fun p => { p with rating := new_p2 })
    else s.p2_session
  let aggs' :=
    if ratedOutcomes.contains outcome then
      let p1_res :=
        if outcome == "p1_win" then "win"
        else if outcome == "p2_win" then "loss" else "draw"
      let p2_res :=
        if outcome == "p2_win" then "win"
        else if outcome == "p1_win" then "loss" else "draw"
      let a1 := update_pvp_aggregate w.aggs s.p1_session.user_id p1_res
      match s.p2_session with
      | some p2 => update_pvp_aggregate a1 p2.user_id p2_res
      | none => a1
    else w.aggs
  let result : MatchResult :=
    { outcome := outcome
      p1 :=
        { user_id := s.p1_session.user_id
          old_rating := old_p1
          new_rating := new_p1
          delta := p1_delta }
      p2 :=
        { user_id := s.p2_session.map (fun p => p.user_id)
          old_rating := old_p2
          new_rating := if s.p2_session.isSome then some new_p2 else none
          delta := if s.p2_session.isSome then p2_delta else 0 } }
  ({ s with
      match_model := model'
      p1_session := p1_session'
      p2_session := p2_session' },
   { w with users := users', aggs := aggs' },
   some result)

/-- `MatchSession.finish_match` (pvp_manager.py lines 144-232).  Takes the
session, the persistent `World`, the current timestamp and the raw outcome;
returns the updated session, the updated world and the broadcast
`match_result` (or `none` on the idempotency guard / on the caught
exception path). -/
noncomputable def finish_match (s : MatchSession) (w : World) (now : ℕ) (outcome0 : String) :
    MatchSession × World × Option MatchResult :=
  if already_finished s then (s, w, none)
  else
    let outcome := sanitizeOutcome outcome0
    let old_p1 := s.p1_session.rating
    let old_p2 := s.p2_session.map (fun p => p.rating)
    -- `new_p2_rating = old_p2 if old_p2 is not None else old_p1` (line 159)
    let new_p2_init := old_p2.getD old_p1
    let elo : Except String (ℤ × ℤ × ℤ × ℤ) :=
      if ratedOutcomes.contains outcome then
        update_ratings_after_match old_p1 new_p2_init outcome
      else .ok (old_p1, new_p2_init, 0, 0)
    match elo with
    | .error _ => (s, w, none)  -- an uncaught ValueError lands in the except handler
    | .ok (new_p1, new_p2, p1_delta, p2_delta) =>
      finish_apply s w now outcome old_p1 old_p2 new_p1 new_p2 p1_delta p2_delta

/-! ## ConnectionManager (pvp_manager.py line 234) -/

/-- `ConnectionManager`: the matchmaking queue (a dict keyed by `user_id`,
modelled as an insertion-ordered list whose entries carry their key as
`user_id`) and the table of active matches keyed by match id. -/
structure ConnectionManager where
  active_matches : List (String × MatchSession) := []
  player_queue : List PlayerSession := []
deriving Repr, DecidableEq

/-- CPython dict assignment `queue[user_id] = player`: replace in place if the
key exists, else append. -/
def dictSetQueue (q : List PlayerSession) (p : PlayerSession) : List PlayerSession :=
  if q.any (fun c => c.user_id == p.user_id) then
    q.map (fun c => if c.user_id == p.user_id then p else c)
  else q ++ [p]

/-- `del queue[uid]`. -/
def dictDelQueue (q : List PlayerSession) (uid : String) : List PlayerSession :=
  q.filter (fun c => c.user_id != uid)

/-- CPython dict assignment `active_matches[mid] = ms`. -/
def dictSetMatch (l : List (String × MatchSession)) (mid : String) (ms : MatchSession) :
    List (String × MatchSession) :=
  if l.any (fun e => e.1 == mid) then
    l.map (fun e => if e.1 == mid then (mid, ms) else e)
  else l ++ [(mid, ms)]

/-- The matchmaking window test (pvp_manager.py line 248):
`abs(candidate.rating - rating) <= 200`. -/
def ratingWindowOk (rating : ℤ) (candidate : PlayerSession) : Bool :=
  (candidate.rating - rating).natAbs ≤ 200

/-- `ConnectionManager.queue_player` (pvp_manager.py lines 240-265).  The fresh
uuid4 match id is passed in as `mid`.  Scans the waiting players in queue
order for the first within the rating window; on a hit removes the candidate,
registers a new match with the candidate as p1 and the caller as p2 and
returns the match id; otherwise enqueues the caller. -/
def queue_player (cm : ConnectionManager) (mid user_id : String) (rating : ℤ) :
    ConnectionManager × Option String :=
  let player : PlayerSession := { user_id := user_id, rating := rating }
  match cm.player_queue.find? (ratingWindowOk rating) with
  | some best_match =>
    let ms : MatchSession :=
      { match_id := mid, p1_session := best_match, p2_session := some player }
    ({ cm with
        player_queue := dictDelQueue cm.player_queue best_match.user_id
        active_matches := dictSetMatch cm.active_matches mid ms },
     some mid)
  | none =>
    ({ cm with player_queue := dictSetQueue cm.player_queue player }, none)

/-- `ConnectionManager.remove_player` (pvp_manager.py line 267). -/
def remove_player (cm : ConnectionManager) (uid : String) : ConnectionManager :=
  { cm with player_queue := dictDelQueue cm.player_queue uid }

/-- `ConnectionManager.remove_match` (pvp_manager.py line 275). -/
def remove_match (cm : ConnectionManager) (mid : String) : ConnectionManager :=
  { cm with active_matches := cm.active_matches.filter (fun e => e.1 != mid) }

/-- The three registry-mutating operations of the `ConnectionManager`. -/
inductive CMOp
  | queue (mid user_id : String) (rating : ℤ)
  | remove_p (user_id : String)
  | remove_m (mid : String)
deriving Repr, DecidableEq

/-- Execute one registry operation. -/
def execOp (cm : ConnectionManager) : CMOp → ConnectionManager
  | .queue mid uid r => (queue_player cm mid uid r).1
  | .remove_p uid => remove_player cm uid
  | .remove_m mid => remove_match cm mid

/-- Execute a sequence of registry operations from the empty manager. -/
def execOps (ops : List CMOp) : ConnectionManager :=
  ops.foldl execOp {}

/-- How many of a match's two player slots hold `uid`. -/
def matchOcc (uid : String) (ms : MatchSession) : ℕ :=
  (if ms.p1_session.user_id == uid then 1 else 0) +
    (match ms.p2_session with
     | some p => if p.user_id == uid then 1 else 0
     | none => 0)

/-- How many queue entries hold `uid`. -/
def queueOcc (cm : ConnectionManager) (uid : String) : ℕ :=
  cm.player_queue.countP (fun p => p.user_id == uid)

/-- How many player slots across all active matches hold `uid`. -/
def matchesOcc (cm : ConnectionManager) (uid : String) : ℕ :=
  (cm.active_matches.map (fun e => matchOcc uid e.2)).sum

/-- Total occurrences of `uid` across the queue and all active matches. -/
def userOcc (cm : ConnectionManager) (uid : String) : ℕ :=
  queueOcc cm uid + matchesOcc cm uid

/-- The per-user disjointness invariant claimed for the registry. -/
def userDisjoint (cm : ConnectionManager) : Prop :=
  ∀ uid, userOcc cm uid ≤ 1

/-- A call trace is valid when every `queue_player` call is made for a user
not currently in the queue or any active match, with a match id not currently
registered (uuid4 freshness). -/
def validFrom (cm : ConnectionManager) : List CMOp → Bool
  | [] => true
  | op :: ops =>
    (match op with
     | .queue mid uid _ =>
       userOcc cm uid == 0 && !(cm.active_matches.any (fun e => e.1 == mid))
     | _ => true) && validFrom (execOp cm op) ops

/-- Modelled from the spec (for refinement comparison only): the
normalization the spec prescribes for round scoring, "trim + case-fold at
minimum".  The source (pvp.py lines 160-163) only trims. -/
def spec_normalize (s : String) : String :=
  String.mk ((py_strip s).data.map Char.toLower)

/-! ## Lemmas about the rating engine -/

theorem calculate_win_probability_add (a b : ℤ) :
    calculate_win_probability a b + calculate_win_probability b a = 1 := by
  unfold calculate_win_probability
  have hcast : (((a - b : ℤ) : ℝ)) / 400 = -((((b - a : ℤ) : ℝ)) / 400) := by
    push_cast; ring
  rw [hcast, Real.rpow_neg (by norm_num : (0:ℝ) ≤ 10)]
  have ht : (0:ℝ) < (10 : ℝ) ^ ((((b - a : ℤ) : ℝ)) / 400) :=
    Real.rpow_pos_of_pos (by norm_num) _
  have h1 : (1:ℝ) + (10 : ℝ) ^ ((((b - a : ℤ) : ℝ)) / 400) ≠ 0 := by positivity
  have h2 : (10 : ℝ) ^ ((((b - a : ℤ) : ℝ)) / 400) ≠ 0 := ne_of_gt ht
  field_simp
  ring

theorem pythonRound_intCast (n : ℤ) : pythonRound ((n : ℝ)) = n := by
  unfold pythonRound
  rw [Int.fract_intCast, if_neg (by norm_num), round_intCast]

theorem pythonRound_neg (x : ℝ) : pythonRound (-x) = -pythonRound x := by
  obtain ⟨n, f, hf0, hf1, rfl⟩ : ∃ (n : ℤ) (f : ℝ), 0 ≤ f ∧ f < 1 ∧ x = (n : ℝ) + f :=
    ⟨⌊x⌋, Int.fract x, Int.fract_nonneg x, Int.fract_lt_one x, (Int.floor_add_fract x).symm⟩
  have hfr : Int.fract ((n : ℝ) + f) = f := by
    rw [Int.fract_int_add, Int.fract_eq_self.mpr ⟨hf0, hf1⟩]
  have hfl : ⌊(n : ℝ) + f⌋ = n := by
    have hzero : ⌊f⌋ = 0 := Int.floor_eq_zero_iff.mpr ⟨hf0, hf1⟩
    rw [Int.floor_int_add, hzero, add_zero]
  by_cases h0 : f = 0
  · subst h0
    have e1 : -((n : ℝ) + 0) = ((-n : ℤ) : ℝ) := by push_cast; ring
    have e2 : (n : ℝ) + 0 = ((n : ℤ) : ℝ) := by ring
    rw [e1, e2, pythonRound_intCast, pythonRound_intCast]
  · by_cases h : f = 1 / 2
    · subst h
      have e1 : -((n : ℝ) + 1 / 2) = ((-n - 1 : ℤ) : ℝ) + 1 / 2 := by push_cast; ring
      have hfrneg : Int.fract (-((n : ℝ) + 1 / 2)) = 1 / 2 := by
        rw [e1, Int.fract_int_add, Int.fract_eq_self.mpr ⟨by norm_num, by norm_num⟩]
      have hflneg : ⌊-((n : ℝ) + 1 / 2)⌋ = -n - 1 := by
        rw [e1, Int.floor_int_add]
        have : ⌊(1 : ℝ) / 2⌋ = 0 := Int.floor_eq_zero_iff.mpr ⟨by norm_num, by norm_num⟩
        omega
      unfold pythonRound
      rw [if_pos hfrneg, if_pos hfr, hflneg, hfl]
      simp only [Int.even_iff]
      split_ifs <;> omega
    · have hf0' : 0 < f := lt_of_le_of_ne hf0 (fun hh => h0 hh.symm)
      have hfrneg : Int.fract (-((n : ℝ) + f)) = 1 - f := by
        have e1 : -((n : ℝ) + f) = ((-n - 1 : ℤ) : ℝ) + (1 - f) := by push_cast; ring
        rw [e1, Int.fract_int_add, Int.fract_eq_self.mpr ⟨by linarith, by linarith⟩]
      unfold pythonRound
      rw [hfr, hfrneg, if_neg (by intro hc; exact h (by linarith)), if_neg h]
      rcases lt_or_gt_of_ne h with hlt | hgt
      · have hrx : round ((n : ℝ) + f) = n := by
          rw [round_eq]
          have e2 : (n : ℝ) + f + 1 / 2 = (n : ℝ) + (f + 1 / 2) := by ring
          rw [e2, Int.floor_int_add]
          have : ⌊f + 1 / 2⌋ = 0 := Int.floor_eq_zero_iff.mpr ⟨by linarith, by linarith⟩
          omega
        have hrneg : round (-((n : ℝ) + f)) = -n := by
          rw [round_eq]
          have e2 : -((n : ℝ) + f) + 1 / 2 = ((-n : ℤ) : ℝ) + (1 / 2 - f) := by
            push_cast; ring
          rw [e2, Int.floor_int_add]
          have : ⌊1 / 2 - f⌋ = 0 := Int.floor_eq_zero_iff.mpr ⟨by linarith, by linarith⟩
          omega
        rw [hrx, hrneg]
      · have hrx : round ((n : ℝ) + f) = n + 1 := by
          rw [round_eq]
          have e2 : (n : ℝ) + f + 1 / 2 = (n : ℝ) + (f + 1 / 2) := by ring
          rw [e2, Int.floor_int_add]
          have : ⌊f + 1 / 2⌋ = 1 := by
            rw [Int.floor_eq_iff]
            constructor
            · push_cast; linarith
            · push_cast; linarith
          omega
        have hrneg : round (-((n : ℝ) + f)) = -(n + 1) := by
          rw [round_eq]
          have e2 : -((n : ℝ) + f) + 1 / 2 = ((-n - 1 : ℤ) : ℝ) + (3 / 2 - f) := by
            push_cast; ring
          rw [e2, Int.floor_int_add]
          have : ⌊3 / 2 - f⌋ = 0 := Int.floor_eq_zero_iff.mpr ⟨by linarith, by linarith⟩
          omega
        rw [hrx, hrneg]

theorem calculate_elo_change_neg_pair (a b : ℤ) (s1 s2 : ℝ) (hs : s1 + s2 = 1) :
    calculate_elo_change a b s1 + calculate_elo_change b a s2 = 0 := by
  unfold calculate_elo_change
  have hE := calculate_win_probability_add a b
  have hswap : ((32 : ℤ) : ℝ) * (s2 - calculate_win_probability b a) =
      -(((32 : ℤ) : ℝ) * (s1 - calculate_win_probability a b)) := by
    have h2 : calculate_win_probability b a = 1 - calculate_win_probability a b := by
      linarith
    rw [h2]
    linear_combination (32 : ℝ) * hs
  rw [hswap, pythonRound_neg]
  omega

/-- Concrete evaluation at equal ratings: the rating difference is 0, the win
probability is exactly a half. -/
theorem calculate_win_probability_self (a : ℤ) : calculate_win_probability a a = 1 / 2 := by
  unfold calculate_win_probability
  have h : (((a - a : ℤ) : ℝ)) / 400 = 0 := by
    push_cast
    ring
  rw [h, Real.rpow_zero]
  norm_num

theorem update_ratings_equal_draw (a : ℤ) :
    update_ratings_after_match a a ("draw") = .ok (a, a, 0, 0) := by
  unfold update_ratings_after_match
  rw [if_neg (by decide), if_neg (by decide), if_pos rfl]
  have hc : calculate_elo_change a a 0.5 = 0 := by
    unfold calculate_elo_change
    rw [calculate_win_probability_self]
    have h : ((32 : ℤ) : ℝ) * (0.5 - 1 / 2) = ((0 : ℤ) : ℝ) := by norm_num
    rw [h, pythonRound_intCast]
  simp only [hc, add_zero]

theorem update_ratings_equal_p1win (a : ℤ) :
    update_ratings_after_match a a ("p1_win") = .ok (a + 16, a - 16, 16, -16) := by
  unfold update_ratings_after_match
  rw [if_pos rfl]
  have hc1 : calculate_elo_change a a 1.0 = 16 := by
    unfold calculate_elo_change
    rw [calculate_win_probability_self]
    have h : ((32 : ℤ) : ℝ) * (1.0 - 1 / 2) = ((16 : ℤ) : ℝ) := by norm_num
    rw [h, pythonRound_intCast]
  have hc2 : calculate_elo_change a a 0.0 = -16 := by
    unfold calculate_elo_change
    rw [calculate_win_probability_self]
    have h : ((32 : ℤ) : ℝ) * (0.0 - 1 / 2) = ((-16 : ℤ) : ℝ) := by norm_num
    rw [h, pythonRound_intCast]
  simp only [hc1, hc2]
  rfl

theorem update_ratings_rated_ok (a b : ℤ) (o : String)
    (ho : o = "p1_win" ∨ o = "p2_win" ∨ o = "draw") :
    ∃ v, update_ratings_after_match a b o = .ok v := by
  rcases ho with rfl | rfl | rfl
  · exact ⟨_, by unfold update_ratings_after_match; rw [if_pos rfl]⟩
  · exact ⟨_, by unfold update_ratings_after_match; rw [if_neg (by decide), if_pos rfl]⟩
  · exact ⟨_, by
      unfold update_ratings_after_match
      rw [if_neg (by decide), if_neg (by decide), if_pos rfl]⟩

/-! ## Structural lemmas about finish_match -/

theorem finish_match_of_already_finished (s : MatchSession) (w : World) (n : ℕ) (o : String)
    (hg : already_finished s = true) : finish_match s w n o = (s, w, none) := by
  unfold finish_match
  rw [if_pos hg]

theorem ratedOutcomes_mem (o : String) (ho : ratedOutcomes.contains o = true) :
    o = "p1_win" ∨ o = "p2_win" ∨ o = "draw" := by
  simp only [ratedOutcomes] at ho
  simp at ho
  exact ho

theorem finish_match_eq_apply (s : MatchSession) (w : World) (n : ℕ) (o : String)
    (hg : already_finished s = false) :
    ∃ new_p1 new_p2 d1 d2 : ℤ,
      finish_match s w n o =
        finish_apply s w n (sanitizeOutcome o) s.p1_session.rating
          (s.p2_session.map (fun p => p.rating)) new_p1 new_p2 d1 d2 := by
  unfold finish_match
  rw [if_neg (by rw [hg]; exact Bool.false_ne_true)]
  dsimp only
  by_cases hr : ratedOutcomes.contains (sanitizeOutcome o) = true
  · obtain ⟨⟨n1, n2, d1, d2⟩, hv⟩ :=
      update_ratings_rated_ok s.p1_session.rating
        ((s.p2_session.map (fun p => p.rating)).getD s.p1_session.rating)
        (sanitizeOutcome o) (ratedOutcomes_mem _ hr)
    rw [if_pos hr, hv]
    exact ⟨n1, n2, d1, d2, rfl⟩
  · rw [if_neg hr]
    exact ⟨_, _, _, _, rfl⟩

theorem finish_apply_model_not_active (s : MatchSession) (w : World) (n : ℕ) (o : String)
    (old1 : ℤ) (old2 : Option ℤ) (n1 n2 d1 d2 : ℤ) (m : PvpMatchModel)
    (hm : s.match_model = some m) :
    already_finished (finish_apply s w n o old1 old2 n1 n2 d1 d2).1 = true := by
  unfold finish_apply already_finished
  simp only [hm, Option.map_some]
  split_ifs <;> rfl


/-! ## C2: the two rating deltas always sum to zero -/

/-- C2: for every pair of integer ratings `a`, `b` and every outcome in
{p1_win, p2_win, draw}, `update_ratings_after_match a b outcome` succeeds and
its two deltas satisfy `d1 + d2 = 0`. -/
theorem C2_elo_deltas_zero_sum (a b : ℤ) (o : String)
    (ho : o = "p1_win" ∨ o = "p2_win" ∨ o = "draw") :
    ∃ n1 n2 d1 d2,
      update_ratings_after_match a b o = .ok (n1, n2, d1, d2) ∧ d1 + d2 = 0 := by
  rcases ho with rfl | rfl | rfl
  · refine ⟨a + calculate_elo_change a b 1.0, b + calculate_elo_change b a 0.0,
      calculate_elo_change a b 1.0, calculate_elo_change b a 0.0, ?_, ?_⟩
    · unfold update_ratings_after_match
      rw [if_pos rfl]
    · exact calculate_elo_change_neg_pair a b 1.0 0.0 (by norm_num)
  · refine ⟨a + calculate_elo_change a b 0.0, b + calculate_elo_change b a 1.0,
      calculate_elo_change a b 0.0, calculate_elo_change b a 1.0, ?_, ?_⟩
    · unfold update_ratings_after_match
      rw [if_neg (by decide), if_pos rfl]
    · exact calculate_elo_change_neg_pair a b 0.0 1.0 (by norm_num)
  · refine ⟨a + calculate_elo_change a b 0.5, b + calculate_elo_change b a 0.5,
      calculate_elo_change a b 0.5, calculate_elo_change b a 0.5, ?_, ?_⟩
    · unfold update_ratings_after_match
      rw [if_neg (by decide), if_neg (by decide), if_pos rfl]
    · exact calculate_elo_change_neg_pair a b 0.5 0.5 (by norm_num)

/-- C2 witness: concrete instantiation at ratings 1000 and 1200 with a draw. -/
theorem C2_elo_deltas_zero_sum_witness :
    ∃ n1 n2 d1 d2,
      update_ratings_after_match 1000 1200 ("draw") = .ok (n1, n2, d1, d2) ∧
        d1 + d2 = 0 :=
  C2_elo_deltas_zero_sum 1000 1200 ("draw") (Or.inr (Or.inr rfl))

/-! ## C9: invalid outcomes raise, finish_match sanitizes first -/

/-- C9: for every outcome outside {p1_win, p2_win, draw},
`update_ratings_after_match` returns the ValueError; `finish_match` never
triggers it, because the sanitized outcome of such a string is itself outside
the rated set (so the Elo call is skipped), and on each of the three rated
strings the Elo call succeeds. -/
theorem C9_invalid_outcome_raises (a b : ℤ) (o : String)
    (ho : ¬(o = "p1_win" ∨ o = "p2_win" ∨ o = "draw")) :
    (∃ e, update_ratings_after_match a b o = .error e) ∧
      ratedOutcomes.contains (sanitizeOutcome o) = false ∧
      (∃ v1, update_ratings_after_match a b ("p1_win") = .ok v1) ∧
      (∃ v2, update_ratings_after_match a b ("p2_win") = .ok v2) ∧
      (∃ v3, update_ratings_after_match a b ("draw") = .ok v3) := by
  push_neg at ho
  obtain ⟨h1, h2, h3⟩ := ho
  refine ⟨⟨("Invalid outcome: " ++ o), ?_⟩, ?_,
    update_ratings_rated_ok a b _ (Or.inl rfl),
    update_ratings_rated_ok a b _ (Or.inr (Or.inl rfl)),
    update_ratings_rated_ok a b _ (Or.inr (Or.inr rfl))⟩
  · unfold update_ratings_after_match
    rw [if_neg h1, if_neg h2, if_neg h3]
  · unfold sanitizeOutcome
    by_cases hall : allowedOutcomes.contains o = true
    · rw [if_pos hall]
      simp only [allowedOutcomes] at hall
      simp at hall
      rcases hall with rfl | rfl | rfl | rfl | rfl
      · exact absurd rfl h1
      · exact absurd rfl h2
      · exact absurd rfl h3
      · decide
      · decide
    · rw [if_neg hall]
      decide

/-- C9 witness: the outcome string "zzz". -/
theorem C9_invalid_outcome_raises_witness :
    (∃ e, update_ratings_after_match 1000 1000 ("zzz") = .error e) ∧
      ratedOutcomes.contains (sanitizeOutcome ("zzz")) = false ∧
      (∃ v1, update_ratings_after_match 1000 1000 ("p1_win") = .ok v1) ∧
      (∃ v2, update_ratings_after_match 1000 1000 ("p2_win") = .ok v2) ∧
      (∃ v3, update_ratings_after_match 1000 1000 ("draw") = .ok v3) :=
  C9_invalid_outcome_raises 1000 1000 ("zzz") (by decide)

/-! ## C1: idempotent termination -/

/-- C1 (amended): provided the session carries a persisted match record
(`match_model` is set — `run_game_cycle` creates it before any termination can
run), a second invocation of `finish_match`, with any pair of successive
outcome arguments, changes nothing: it leaves the session, the persisted user
ratings, the aggregates and the match record exactly as the first invocation
left them, and broadcasts nothing. -/
theorem C1_finish_match_idempotent (s : MatchSession) (w : World) (n1 n2 : ℕ)
    (o1 o2 : String) (m : PvpMatchModel) (hm : s.match_model = some m)
    (s1 : MatchSession) (w1 : World) (r1 : Option MatchResult)
    (h1 : finish_match s w n1 o1 = (s1, w1, r1)) :
    finish_match s1 w1 n2 o2 = (s1, w1, none) := by
  cases hg : already_finished s with
  | true =>
    have he := finish_match_of_already_finished s w n1 o1 hg
    have hh := h1.symm.trans he
    have hs1 : s1 = s := congrArg (fun p => p.1) hh
    have hw1 : w1 = w := congrArg (fun p => p.2.1) hh
    rw [hs1, hw1]
    exact finish_match_of_already_finished s w n2 o2 hg
  | false =>
    obtain ⟨a1, a2, a3, a4, happ⟩ := finish_match_eq_apply s w n1 o1 hg
    have hh := h1.symm.trans happ
    have hs1 : s1 =
        (finish_apply s w n1 (sanitizeOutcome o1) s.p1_session.rating
          (s.p2_session.map (fun p => p.rating)) a1 a2 a3 a4).1 :=
      congrArg (fun p => p.1) hh
    have hfin : already_finished s1 = true := by
      rw [hs1]
      exact finish_apply_model_not_active s w n1 (sanitizeOutcome o1)
        s.p1_session.rating (s.p2_session.map (fun p => p.rating)) a1 a2 a3 a4 m hm
    exact finish_match_of_already_finished s1 w1 n2 o2 hfin

/-- C1 witness: a session whose record is already in the finished state; the
second call (outcome p1_win) is a no-op. -/
theorem C1_finish_match_idempotent_witness :
    finish_match
      { match_id := "m"
        p1_session := { user_id := "a", rating := 1000 }
        p2_session := some { user_id := "b", rating := 1000 }
        match_model := some { state := PvpMatchState.finished } }
      { users := fun _ => none, aggs := fun _ => none } 1 ("p1_win") =
      ({ match_id := "m"
         p1_session := { user_id := "a", rating := 1000 }
         p2_session := some { user_id := "b", rating := 1000 }
         match_model := some { state := PvpMatchState.finished } },
       { users := fun _ => none, aggs := fun _ => none }, none) :=
  C1_finish_match_idempotent _ _ 0 1 ("draw") ("p1_win")
    { state := PvpMatchState.finished } rfl _ _ none
    (finish_match_of_already_finished _ _ 0 ("draw") rfl)

/-- C1 counterexample: with no persisted match record (`match_model = none`,
as a `MatchSession` is constructed), the idempotency guard at line 147 of
pvp_manager.py is skipped, so a second invocation of `finish_match` applies a
further rating update: after a first completed call with outcome draw, a
second call with outcome p1_win moves the persisted rating of user "a" from
1000 to 1016 and broadcasts a second match_result. -/
theorem C1_finish_match_not_idempotent_without_record :
    ((finish_match
        { match_id := "m"
          p1_session := { user_id := "a", rating := 1000 }
          p2_session := some { user_id := "b", rating := 1000 }
          match_model := none }
        { users := fun u => if u = "a" then some 1000 else if u = "b" then some 1000 else none
          aggs := fun _ => none } 0 ("draw")).2.1).users ("a") = some 1000 ∧
    ((finish_match
        (finish_match
          { match_id := "m"
            p1_session := { user_id := "a", rating := 1000 }
            p2_session := some { user_id := "b", rating := 1000 }
            match_model := none }
          { users := fun u => if u = "a" then some 1000 else if u = "b" then some 1000 else none
            aggs := fun _ => none } 0 ("draw")).1
        (finish_match
          { match_id := "m"
            p1_session := { user_id := "a", rating := 1000 }
            p2_session := some { user_id := "b", rating := 1000 }
            match_model := none }
          { users := fun u => if u = "a" then some 1000 else if u = "b" then some 1000 else none
            aggs := fun _ => none } 0 ("draw")).2.1 1 ("p1_win")).2.1).users ("a") =
      some 1016 ∧
    ((finish_match
        (finish_match
          { match_id := "m"
            p1_session := { user_id := "a", rating := 1000 }
            p2_session := some { user_id := "b", rating := 1000 }
            match_model := none }
          { users := fun u => if u = "a" then some 1000 else if u = "b" then some 1000 else none
            aggs := fun _ => none } 0 ("draw")).1
        (finish_match
          { match_id := "m"
            p1_session := { user_id := "a", rating := 1000 }
            p2_session := some { user_id := "b", rating := 1000 }
            match_model := none }
          { users := fun u => if u = "a" then some 1000 else if u = "b" then some 1000 else none
            aggs := fun _ => none } 0 ("draw")).2.1 1 ("p1_win")).2.2).isSome = true := by
  have hd := update_ratings_equal_draw 1000
  have hp := update_ratings_equal_p1win 1000
  refine ⟨?_, ?_, ?_⟩ <;>
    simp +decide [finish_match, already_finished, sanitizeOutcome, allowedOutcomes,
      ratedOutcomes, finish_apply, setUserRating, update_pvp_aggregate, hd, hp]

/-! ## C8: canceled / technical_error leave ratings untouched -/

/-- C8: for a live match (record present and active), `finish_match` with
outcome canceled or technical_error leaves both player sessions and the
persistent world (user ratings, aggregates) unchanged, persists the match
record with the corresponding state, a set `finished_at` and zero deltas, and
still returns a `match_result` broadcast with zero deltas and unchanged
ratings. -/
theorem C8_unrated_outcome_frame (s : MatchSession) (w : World) (now : ℕ) (o : String)
    (m : PvpMatchModel) (hm : s.match_model = some m) (hact : m.state = PvpMatchState.active)
    (ho : o = "canceled" ∨ o = "technical_error") :
    (finish_match s w now o).1.p1_session = s.p1_session ∧
      (finish_match s w now o).1.p2_session = s.p2_session ∧
      (finish_match s w now o).2.1 = w ∧
      (finish_match s w now o).1.match_model =
        some { m with
          state := if o = "canceled" then PvpMatchState.canceled
                   else PvpMatchState.technical_error
          outcome := none
          finished_at := some now
          p1_rating_delta := 0
          p2_rating_delta := 0 } ∧
      ∃ res, (finish_match s w now o).2.2 = some res ∧
        res.outcome = o ∧ res.p1.delta = 0 ∧ res.p2.delta = 0 ∧
        res.p1.old_rating = s.p1_session.rating ∧
        res.p1.new_rating = s.p1_session.rating := by
  have hg : already_finished s = false := by
    simp [already_finished, hm, hact]
  have hfin : finish_match s w now o =
      finish_apply s w now o s.p1_session.rating (s.p2_session.map (fun p => p.rating))
        s.p1_session.rating ((s.p2_session.map (fun p => p.rating)).getD s.p1_session.rating)
        0 0 := by
    unfold finish_match
    rw [if_neg (by rw [hg]; exact Bool.false_ne_true)]
    dsimp only
    rcases ho with rfl | rfl
    · rw [show sanitizeOutcome ("canceled") = ("canceled") from rfl,
        if_neg (show ¬(ratedOutcomes.contains ("canceled") = true) from by decide)]
    · rw [show sanitizeOutcome ("technical_error") = ("technical_error") from rfl,
        if_neg (show ¬(ratedOutcomes.contains ("technical_error") = true) from by decide)]
  rw [hfin]
  rcases ho with rfl | rfl <;>
    simp +decide [finish_apply, hm]

/-- C8 witness: a concrete active match canceled at time 7. -/
theorem C8_unrated_outcome_frame_witness :
    (finish_match
        { match_id := "m"
          p1_session := { user_id := "a", rating := 1100 }
          p2_session := some { user_id := "b", rating := 1050 }
          match_model := some { state := PvpMatchState.active } }
        { users := fun _ => none, aggs := fun _ => none } 7 ("canceled")).1.p1_session =
        { user_id := "a", rating := 1100 } ∧
      (finish_match
        { match_id := "m"
          p1_session := { user_id := "a", rating := 1100 }
          p2_session := some { user_id := "b", rating := 1050 }
          match_model := some { state := PvpMatchState.active } }
        { users := fun _ => none, aggs := fun _ => none } 7 ("canceled")).1.p2_session =
        some { user_id := "b", rating := 1050 } ∧
      (finish_match
        { match_id := "m"
          p1_session := { user_id := "a", rating := 1100 }
          p2_session := some { user_id := "b", rating := 1050 }
          match_model := some { state := PvpMatchState.active } }
        { users := fun _ => none, aggs := fun _ => none } 7 ("canceled")).2.1 =
        { users := fun _ => none, aggs := fun _ => none } ∧
      (finish_match
        { match_id := "m"
          p1_session := { user_id := "a", rating := 1100 }
          p2_session := some { user_id := "b", rating := 1050 }
          match_model := some { state := PvpMatchState.active } }
        { users := fun _ => none, aggs := fun _ => none } 7 ("canceled")).1.match_model =
        some { state := if ("canceled" : String) = "canceled" then PvpMatchState.canceled
                        else PvpMatchState.technical_error
               outcome := none
               finished_at := some 7
               p1_rating_delta := 0
               p2_rating_delta := 0 } ∧
      ∃ res,
        (finish_match
          { match_id := "m"
            p1_session := { user_id := "a", rating := 1100 }
            p2_session := some { user_id := "b", rating := 1050 }
            match_model := some { state := PvpMatchState.active } }
          { users := fun _ => none, aggs := fun _ => none } 7 ("canceled")).2.2 = some res ∧
          res.outcome = "canceled" ∧ res.p1.delta = 0 ∧ res.p2.delta = 0 ∧
          res.p1.old_rating = 1100 ∧ res.p1.new_rating = 1100 :=
  C8_unrated_outcome_frame
    { match_id := "m"
      p1_session := { user_id := "a", rating := 1100 }
      p2_session := some { user_id := "b", rating := 1050 }
      match_model := some { state := PvpMatchState.active } }
    { users := fun _ => none, aggs := fun _ => none } 7 ("canceled")
    { state := PvpMatchState.active } rfl rfl (Or.inl rfl)

/-! ## C3: dedup policy and round reset -/

/-- C3 (code evaluation at the failing input): under policy
`answer_change_allowed = false`, the first submission (id s1) from the
connected player p1 is counted and a second submission with a different id is
rejected; but after the round reset of pvp.py lines 146-147 — which clears
only `answer`, not `counted_submission_id` — the first submission of the next
round (fresh id s2) is also rejected, so acceptance never re-opens. -/
theorem C3_round_reset_does_not_reopen_acceptance :
    (handle_answer_submission false
        { match_id := "m"
          p1_session := { user_id := "a", rating := 1000 }
          p2_session := some { user_id := "b", rating := 1000 } }
        ("a") ("x") ("s1")).2 = true ∧
      (handle_answer_submission false
        (handle_answer_submission false
          { match_id := "m"
            p1_session := { user_id := "a", rating := 1000 }
            p2_session := some { user_id := "b", rating := 1000 } }
          ("a") ("x") ("s1")).1
        ("a") ("z") ("s2")).2 = false ∧
      (handle_answer_submission false
        (round_reset
          (handle_answer_submission false
            { match_id := "m"
              p1_session := { user_id := "a", rating := 1000 }
              p2_session := some { user_id := "b", rating := 1000 } }
            ("a") ("x") ("s1")).1)
        ("a") ("y") ("s2")).2 = false := by decide

/-! ## C4: round scoring normalization -/

/-- C4 counterexample: with player answer "A" and stored task answer "a" the
code scores the round as incorrect, although the answer is non-null and the
two agree under the spec's trim-and-case-fold normalization. -/
theorem C4_no_case_folding_counterexample :
    (score_round 0 0 (some ("A")) none (some ("a"))).p1_correct = false ∧
      (some ("A") : Option String) ≠ none ∧
      spec_normalize ("A") = spec_normalize ("a") := by decide

/-- C4 (amended): a player's round answer counts as correct iff both it and
the task's stored answer are non-null and the whitespace-trimmed player
answer equals the whitespace-trimmed task answer — the comparison is
case-sensitive, no case-folding is applied; on a correct answer that side's
score is incremented by exactly 1, otherwise it is unchanged. -/
theorem C4_round_scoring_trim_only (p1s p2s : ℕ) (a1 a2 ta : Option String) :
    ((score_round p1s p2s a1 a2 ta).p1_correct = true ↔
        ∃ x y, a1 = some x ∧ ta = some y ∧ py_strip x = py_strip y) ∧
      ((score_round p1s p2s a1 a2 ta).p2_correct = true ↔
        ∃ x y, a2 = some x ∧ ta = some y ∧ py_strip x = py_strip y) ∧
      (score_round p1s p2s a1 a2 ta).p1_score =
        (if (score_round p1s p2s a1 a2 ta).p1_correct then p1s + 1 else p1s) ∧
      (score_round p1s p2s a1 a2 ta).p2_score =
        (if (score_round p1s p2s a1 a2 ta).p2_correct then p2s + 1 else p2s) := by
  unfold score_round
  rcases a1 with _ | x1 <;> rcases a2 with _ | x2 <;> rcases ta with _ | t <;> simp

/-! ## C5: submissions from unresolved or disconnected sessions -/

/-- In the `answer_change_allowed = true` policy every branch counts the
submission and stores the answer. -/
theorem submit_to_session_true_counts (sess : PlayerSession) (ans sid : String) :
    (submit_to_session true sess ans sid).2 = true ∧
      (submit_to_session true sess ans sid).1.answer = some ans := by
  unfold submit_to_session
  split_ifs <;> simp_all

/-- C5 counterexample: a `player_id` ("c") that belongs to neither player is
resolved to the p2 slot (pvp_manager.py line 94); with p2 connected the call
returns true and mutates p2's session state, where the claim requires false
and no modification. -/
theorem C5_stranger_id_mutates_p2 :
    (("c" : String) ≠ "a") ∧ (("c" : String) ≠ "b") ∧
      (handle_answer_submission ANSWER_CHANGE_ALLOWED
        { match_id := "m"
          p1_session := { user_id := "a", rating := 1000 }
          p2_session := some { user_id := "b", rating := 1000 } }
        ("c") ("x") ("s1")).2 = true ∧
      (handle_answer_submission ANSWER_CHANGE_ALLOWED
        { match_id := "m"
          p1_session := { user_id := "a", rating := 1000 }
          p2_session := some { user_id := "b", rating := 1000 } }
        ("c") ("x") ("s1")).1.p2_session =
        some { user_id := "b", rating := 1000, answer := some ("x"),
               submission_count := 1, counted_submission_id := some ("s1") } := by
  decide

/-- C5 (amended): `player_id` equal to p1's id resolves to p1, any other
`player_id` resolves to the p2 slot; whenever the resolved session is absent
or disconnected the call returns false and no session state is modified. -/
theorem C5_unresolved_or_disconnected_rejected (policy : Bool) (s : MatchSession)
    (pid ans sid : String)
    (h : resolve_session s pid = none ∨
         ∃ q, resolve_session s pid = some q ∧ q.connected = false) :
    handle_answer_submission policy s pid ans sid = (s, false) := by
  unfold handle_answer_submission
  unfold resolve_session at h
  rcases h with h | ⟨q, hq, hconn⟩
  · by_cases hb : (pid == s.p1_session.user_id) = true
    · rw [if_pos hb] at h
      exact absurd h (by simp)
    · rw [if_neg hb] at h
      simp [hb, h]
  · by_cases hb : (pid == s.p1_session.user_id) = true
    · rw [if_pos hb] at hq
      simp only [Option.some.injEq] at hq
      subst hq
      simp [hb, hconn]
    · rw [if_neg hb] at hq
      simp [hb, hq, hconn]

/-- C5 witness: a disconnected p1 submitting is rejected without mutation. -/
theorem C5_unresolved_or_disconnected_rejected_witness :
    handle_answer_submission true
      { match_id := "m"
        p1_session := { user_id := "a", rating := 1000, connected := false }
        p2_session := none }
      ("a") ("x") ("s1") =
      ({ match_id := "m"
         p1_session := { user_id := "a", rating := 1000, connected := false }
         p2_session := none }, false) :=
  C5_unresolved_or_disconnected_rejected true
    { match_id := "m"
      p1_session := { user_id := "a", rating := 1000, connected := false }
      p2_session := none }
    ("a") ("x") ("s1")
    (Or.inr ⟨{ user_id := "a", rating := 1000, connected := false }, rfl, rfl⟩)

/-! ## C10: the empty-string answer -/

/-- C10: under the live policy (`ANSWER_CHANGE_ALLOWED = true`), a connected
player submitting the empty string is counted (returns true), the stored
answer becomes `some ""` so `broadcast_state` reports the player as answered,
yet the round loop's early-exit condition — Python truthiness of both stored
answers — is false whenever a stored answer is the empty string, so the
answer-collection wait can only end at the round timeout. -/
theorem C10_empty_string_counted_but_never_early_exits (s : MatchSession)
    (pid sid : String)
    (h : (pid == s.p1_session.user_id) = true ∧ s.p1_session.connected = true ∨
         (pid == s.p1_session.user_id) = false ∧
           ∃ q, s.p2_session = some q ∧ q.connected = true) :
    (handle_answer_submission ANSWER_CHANGE_ALLOWED s pid ("") sid).2 = true ∧
      answers_early_exit
        (handle_answer_submission ANSWER_CHANGE_ALLOWED s pid ("") sid).1 = false ∧
      ((pid == s.p1_session.user_id) = true →
        (handle_answer_submission ANSWER_CHANGE_ALLOWED s pid ("") sid).1.p1_session.answer =
          some ("") ∧
        (broadcast_state
          (handle_answer_submission ANSWER_CHANGE_ALLOWED s pid ("") sid).1).p1_answered =
          true) ∧
      ((pid == s.p1_session.user_id) = false →
        ∃ q',
          (handle_answer_submission ANSWER_CHANGE_ALLOWED s pid ("") sid).1.p2_session =
            some q' ∧ q'.answer = some ("") ∧
          (broadcast_state
            (handle_answer_submission ANSWER_CHANGE_ALLOWED s pid ("") sid).1).p2_answered =
            true) := by
  rcases h with ⟨hb, hconn⟩ | ⟨hb, q, hq, hconn⟩
  · obtain ⟨hc, ha⟩ := submit_to_session_true_counts s.p1_session ("") sid
    have hh : handle_answer_submission ANSWER_CHANGE_ALLOWED s pid ("") sid =
        ({ s with p1_session := (submit_to_session true s.p1_session ("") sid).1 },
         (submit_to_session true s.p1_session ("") sid).2) := by
      unfold handle_answer_submission ANSWER_CHANGE_ALLOWED
      simp [hb, hconn]
    rw [hh]
    refine ⟨hc, ?_, fun _ => ⟨ha, ?_⟩, fun hbf => absurd hb (by simp [hbf])⟩
    · unfold answers_early_exit pyTruthy
      simp [ha]
    · unfold broadcast_state
      simp [ha]
  · obtain ⟨hc, ha⟩ := submit_to_session_true_counts q ("") sid
    have hh : handle_answer_submission ANSWER_CHANGE_ALLOWED s pid ("") sid =
        ({ s with p2_session := some (submit_to_session true q ("") sid).1 },
         (submit_to_session true q ("") sid).2) := by
      unfold handle_answer_submission ANSWER_CHANGE_ALLOWED
      simp [hb, hq, hconn]
    rw [hh]
    refine ⟨hc, ?_, fun hbt => absurd hbt (by simp [hb]), fun _ =>
      ⟨(submit_to_session true q ("") sid).1, rfl, ha, ?_⟩⟩
    · unfold answers_early_exit pyTruthy
      simp [ha]
    · unfold broadcast_state
      simp [ha]

/-- C10 witness: player "a" (p1, connected) submits the empty string. -/
theorem C10_empty_string_counted_but_never_early_exits_witness :
    (handle_answer_submission ANSWER_CHANGE_ALLOWED
        { match_id := "m"
          p1_session := { user_id := "a", rating := 1000 }
          p2_session := some { user_id := "b", rating := 1000 } }
        ("a") ("") ("s1")).2 = true ∧
      answers_early_exit
        (handle_answer_submission ANSWER_CHANGE_ALLOWED
          { match_id := "m"
            p1_session := { user_id := "a", rating := 1000 }
            p2_session := some { user_id := "b", rating := 1000 } }
          ("a") ("") ("s1")).1 = false ∧
      ((("a" : String) == "a") = true →
        (handle_answer_submission ANSWER_CHANGE_ALLOWED
          { match_id := "m"
            p1_session := { user_id := "a", rating := 1000 }
            p2_session := some { user_id := "b", rating := 1000 } }
          ("a") ("") ("s1")).1.p1_session.answer = some ("") ∧
        (broadcast_state
          (handle_answer_submission ANSWER_CHANGE_ALLOWED
            { match_id := "m"
              p1_session := { user_id := "a", rating := 1000 }
              p2_session := some { user_id := "b", rating := 1000 } }
            ("a") ("") ("s1")).1).p1_answered = true) ∧
      ((("a" : String) == "a") = false →
        ∃ q',
          (handle_answer_submission ANSWER_CHANGE_ALLOWED
            { match_id := "m"
              p1_session := { user_id := "a", rating := 1000 }
              p2_session := some { user_id := "b", rating := 1000 } }
            ("a") ("") ("s1")).1.p2_session = some q' ∧ q'.answer = some ("") ∧
          (broadcast_state
            (handle_answer_submission ANSWER_CHANGE_ALLOWED
              { match_id := "m"
                p1_session := { user_id := "a", rating := 1000 }
                p2_session := some { user_id := "b", rating := 1000 } }
              ("a") ("") ("s1")).1).p2_answered = true) :=
  C10_empty_string_counted_but_never_early_exits
    { match_id := "m"
      p1_session := { user_id := "a", rating := 1000 }
      p2_session := some { user_id := "b", rating := 1000 } }
    ("a") ("s1") (Or.inl ⟨rfl, rfl⟩)

/-! ## C7: first-fit matchmaking within the rating window -/

/-- Decomposition of a successful `List.find?`: the hit splits the list, and
the predicate fails on everything before the hit. -/
theorem find?_eq_some_split {α : Type} (p : α → Bool) (l : List α) (b : α)
    (h : l.find? p = some b) :
    ∃ l1 l2, l = l1 ++ b :: l2 ∧ ∀ x ∈ l1, p x = false := by
  induction l with
  | nil => simp at h
  | cons a t ih =>
    cases hb : p a with
    | true =>
      rw [List.find?_cons_of_pos t hb] at h
      obtain rfl : a = b := by simpa using h
      exact ⟨[], t, rfl, by simp⟩
    | false =>
      rw [List.find?_cons_of_neg t (by simp [hb])] at h
      obtain ⟨l1, l2, hsplit, hall⟩ := ih h
      refine ⟨a :: l1, l2, by rw [hsplit]; rfl, ?_⟩
      intro x hx
      rcases List.mem_cons.mp hx with rfl | hx'
      · exact hb
      · exact hall x hx'

/-- C7: `queue_player` pairs the caller with the first waiting player (in
queue order) whose rating differs by at most 200, removing that candidate
from the queue and registering a fresh match with the candidate as p1 and the
caller as p2; if no waiting player is in the window the caller is enqueued
and none is returned.  In particular 1000 and 1150 pair in either arrival
order, and 1000 and 1300 never pair (both remain queued, no match is
created). -/
theorem C7_queue_player_first_fit (cm : ConnectionManager) (mid uid : String) (r : ℤ) :
    (cm.player_queue.find? (ratingWindowOk r) = none →
      (∀ c ∈ cm.player_queue, ratingWindowOk r c = false) ∧
      queue_player cm mid uid r =
        ({ cm with
            player_queue := dictSetQueue cm.player_queue { user_id := uid, rating := r } },
         none)) ∧
    (∀ best, cm.player_queue.find? (ratingWindowOk r) = some best →
      ratingWindowOk r best = true ∧
      (∃ l1 l2, cm.player_queue = l1 ++ best :: l2 ∧ ∀ c ∈ l1, ratingWindowOk r c = false) ∧
      queue_player cm mid uid r =
        ({ cm with
            player_queue := dictDelQueue cm.player_queue best.user_id
            active_matches := dictSetMatch cm.active_matches mid
              { match_id := mid
                p1_session := best
                p2_session := some { user_id := uid, rating := r } } },
         some mid)) ∧
    (queue_player (queue_player ⟨[], []⟩ ("m1") ("u1") 1000).1 ("m2") ("u2") 1150).2 =
      some ("m2") ∧
    (queue_player (queue_player ⟨[], []⟩ ("m1") ("u1") 1000).1
        ("m2") ("u2") 1150).1.active_matches =
      [(("m2"), { match_id := "m2"
                  p1_session := { user_id := "u1", rating := 1000 }
                  p2_session := some { user_id := "u2", rating := 1150 } })] ∧
    (queue_player (queue_player ⟨[], []⟩ ("m1") ("u1") 1150).1 ("m2") ("u2") 1000).2 =
      some ("m2") ∧
    (queue_player (queue_player ⟨[], []⟩ ("m1") ("u1") 1000).1 ("m2") ("u2") 1300).2 = none ∧
    (queue_player (queue_player ⟨[], []⟩ ("m1") ("u1") 1000).1
        ("m2") ("u2") 1300).1.player_queue =
      [{ user_id := "u1", rating := 1000 }, { user_id := "u2", rating := 1300 }] ∧
    (queue_player (queue_player ⟨[], []⟩ ("m1") ("u1") 1000).1
        ("m2") ("u2") 1300).1.active_matches = [] := by
  refine ⟨?_, ?_, by decide, by decide, by decide, by decide, by decide, by decide⟩
  · intro hf
    constructor
    · intro c hc
      have := List.find?_eq_none.mp hf c hc
      simpa using this
    · unfold queue_player
      rw [hf]
  · intro best hf
    refine ⟨List.find?_some hf, find?_eq_some_split _ _ _ hf, ?_⟩
    unfold queue_player
    rw [hf]

/-! ## C6: per-user disjointness of queue and active matches -/

/-- A filtered list satisfies a predicate at most as often as the list. -/
theorem countP_filter_le {α : Type} (l : List α) (p q : α → Bool) :
    List.countP p (l.filter q) ≤ List.countP p l := by
  induction l with
  | nil => simp
  | cons a t ih =>
    by_cases hq : q a = true
    · rw [List.filter_cons_of_pos hq, List.countP_cons, List.countP_cons]
      omega
    · rw [List.filter_cons_of_neg (by simpa using hq), List.countP_cons]
      omega

/-- Summing a function over a filtered list is bounded by the full sum. -/
theorem sum_map_filter_le {α : Type} (l : List α) (q : α → Bool) (f : α → ℕ) :
    ((l.filter q).map f).sum ≤ (l.map f).sum := by
  induction l with
  | nil => simp
  | cons a t ih =>
    by_cases hq : q a = true
    · rw [List.filter_cons_of_pos hq, List.map_cons, List.map_cons, List.sum_cons,
        List.sum_cons]
      omega
    · rw [List.filter_cons_of_neg (by simpa using hq), List.map_cons, List.sum_cons]
      omega

/-- `remove_player` only removes queue entries, so it preserves disjointness. -/
theorem userDisjoint_remove_player (cm : ConnectionManager) (uid : String)
    (hd : userDisjoint cm) : userDisjoint (remove_player cm uid) := by
  intro v
  have h := hd v
  unfold userOcc queueOcc matchesOcc remove_player dictDelQueue at *
  simp only at *
  have := countP_filter_le cm.player_queue
    (fun p => p.user_id == v) (fun c => c.user_id != uid)
  omega

/-- `remove_match` only removes matches, so it preserves disjointness. -/
theorem userDisjoint_remove_match (cm : ConnectionManager) (mid : String)
    (hd : userDisjoint cm) : userDisjoint (remove_match cm mid) := by
  intro v
  have h := hd v
  unfold userOcc queueOcc matchesOcc remove_match at *
  simp only at *
  have := sum_map_filter_le cm.active_matches (fun e => e.1 != mid)
    (fun e => matchOcc v e.2)
  omega


/-- `queue_player` preserves disjointness when the caller is not already
present anywhere and the match id is fresh: if a candidate is found it moves
from the queue into the new match's p1 slot and the caller occupies only the
p2 slot; otherwise the caller is enqueued once. -/
theorem userDisjoint_queue_player (cm : ConnectionManager) (mid uid : String) (r : ℤ)
    (hd : userDisjoint cm) (hu : userOcc cm uid = 0)
    (hmid : cm.active_matches.any (fun e => e.1 == mid) = false) :
    userDisjoint (queue_player cm mid uid r).1 := by
  have hq0 : queueOcc cm uid = 0 := by
    have := hu
    unfold userOcc at this
    omega
  have hm0 : matchesOcc cm uid = 0 := by
    have := hu
    unfold userOcc at this
    omega
  unfold queue_player
  cases hf : cm.player_queue.find? (ratingWindowOk r) with
  | none =>
    simp only
    have hnone : (cm.player_queue.any fun c =>
        c.user_id == ({ user_id := uid, rating := r } : PlayerSession).user_id) = false := by
      rw [List.any_eq_false]
      intro x hx
      have hz := List.countP_eq_zero.mp hq0 x hx
      simpa using hz
    intro v
    have h := hd v
    simp only [userOcc, queueOcc, matchesOcc] at h
    simp only [userOcc, queueOcc, matchesOcc, dictSetQueue, hnone, Bool.false_eq_true,
      if_false]
    rw [List.countP_append]
    by_cases hv1 : v = uid
    · have hone : List.countP (fun p => p.user_id == v)
          [({ user_id := uid, rating := r } : PlayerSession)] = 1 := by
        simp [hv1]
      have hcv : List.countP (fun p => p.user_id == v) cm.player_queue = 0 := by
        rw [hv1]
        exact hq0
      have hmv : (List.map (fun e => matchOcc v e.2) cm.active_matches).sum = 0 := by
        rw [hv1]
        exact hm0
      omega
    · have hzero : List.countP (fun p => p.user_id == v)
          [({ user_id := uid, rating := r } : PlayerSession)] = 0 := by
        simp [Ne.symm hv1]
      omega
  | some best =>
    simp only
    intro v
    have hbm : best ∈ cm.player_queue := List.mem_of_find?_eq_some hf
    have hqbpos : 0 < queueOcc cm best.user_id :=
      List.countP_pos_iff.mpr ⟨best, hbm, by simp⟩
    have hub : queueOcc cm best.user_id + matchesOcc cm best.user_id ≤ 1 := by
      have hdb := hd best.user_id
      unfold userOcc at hdb
      omega
    have hqb1 : queueOcc cm best.user_id = 1 := by omega
    have hmb0 : matchesOcc cm best.user_id = 0 := by omega
    have hneq : best.user_id ≠ uid := by
      intro he
      rw [he] at hqb1
      omega
    have happend : dictSetMatch cm.active_matches mid
        { match_id := mid, p1_session := best,
          p2_session := some { user_id := uid, rating := r } } =
        cm.active_matches ++ [(mid,
          { match_id := mid, p1_session := best,
            p2_session := some { user_id := uid, rating := r } })] := by
      unfold dictSetMatch
      rw [hmid]
      simp
    have hms : matchOcc v
        { match_id := mid, p1_session := best,
          p2_session := some { user_id := uid, rating := r } } =
        (if best.user_id == v then 1 else 0) + (if uid == v then 1 else 0) := by
      unfold matchOcc
      rfl
    have h := hd v
    simp only [userOcc, queueOcc, matchesOcc] at h hq0 hm0 hqb1 hmb0
    simp only [userOcc, queueOcc, matchesOcc, dictDelQueue]
    rw [happend, List.map_append, List.sum_append, List.map_cons, List.map_nil,
      List.sum_cons, List.sum_nil, hms]
    by_cases hv1 : v = uid
    · have hb : (best.user_id == v) = false := by
        rw [hv1]
        simp [hneq]
      have hu2 : (uid == v) = true := by
        rw [hv1]
        simp
      have hcv : List.countP (fun p => p.user_id == v) cm.player_queue = 0 := by
        rw [hv1]
        exact hq0
      have hmv : (List.map (fun e => matchOcc v e.2) cm.active_matches).sum = 0 := by
        rw [hv1]
        exact hm0
      have hc1 := countP_filter_le cm.player_queue (fun p => p.user_id == v)
        (fun c => c.user_id != best.user_id)
      rw [hb, hu2]
      simp only [Bool.false_eq_true, if_false, if_true]
      omega
    · by_cases hv2 : v = best.user_id
      · have hc0 : List.countP (fun p => p.user_id == v)
            (cm.player_queue.filter fun c => c.user_id != best.user_id) = 0 := by
          rw [List.countP_eq_zero]
          intro x hx
          have hxm := List.mem_filter.mp hx
          rw [hv2]
          simpa using hxm.2
        have hbv : (best.user_id == v) = true := by
          rw [hv2]
          simp
        have huv : (uid == v) = false := by
          rw [hv2]
          simp
          exact fun he => hneq he.symm
        have hmv : (List.map (fun e => matchOcc v e.2) cm.active_matches).sum = 0 := by
          rw [hv2]
          exact hmb0
        rw [hc0, hbv, huv]
        simp only [Bool.false_eq_true, if_false, if_true]
        omega
      · have hc1 := countP_filter_le cm.player_queue (fun p => p.user_id == v)
          (fun c => c.user_id != best.user_id)
        have hbv : (best.user_id == v) = false := by
          simp
          exact fun he => hv2 he.symm
        have huv : (uid == v) = false := by
          simp
          exact fun he => hv1 he.symm
        rw [hbv, huv]
        simp only [Bool.false_eq_true, if_false]
        omega


/-- C6 (amended): after any sequence of `queue_player`, `remove_player`,
`remove_match` operations from the empty registry in which every
`queue_player` call is made for a user not currently in the queue or any
active match's slots and with a fresh match id (the router's usage pattern),
no user id occurs more than once across the queue and all active matches'
p1/p2 slots.  Without that freshness precondition the invariant fails. -/
theorem C6_registry_disjoint_of_fresh_queueing (ops : List CMOp) (h : validFrom ⟨[], []⟩ ops = true) :
    userDisjoint (execOps ops) := by
  suffices hgen : ∀ (l : List CMOp) (cm : ConnectionManager), userDisjoint cm →
      validFrom cm l = true → userDisjoint (l.foldl execOp cm) by
    exact hgen ops ⟨[], []⟩ (fun uid => by simp [userOcc, queueOcc, matchesOcc]) h
  intro l
  induction l with
  | nil =>
    intro cm hd _
    exact hd
  | cons op t ih =>
    intro cm hd hv
    rw [List.foldl_cons]
    cases op with
    | queue mid uid r =>
      simp only [validFrom, Bool.and_eq_true] at hv
      obtain ⟨⟨h1, h2⟩, hrest⟩ := hv
      exact ih _ (userDisjoint_queue_player cm mid uid r hd (by simpa using h1)
        (by simpa using h2)) hrest
    | remove_p uid =>
      simp only [validFrom, Bool.and_eq_true, true_and] at hv
      exact ih _ (userDisjoint_remove_player cm uid hd) hv
    | remove_m mid =>
      simp only [validFrom, Bool.and_eq_true, true_and] at hv
      exact ih _ (userDisjoint_remove_match cm mid hd) hv

/-- C6 counterexample: `queue_player` does not check whether the caller is
already present; a user who queues twice is matched against themself, after
which the user occurs twice (both slots of one active match), violating the
claimed invariant. -/
theorem C6_registry_not_always_disjoint :
    ¬ userDisjoint
        (execOps [CMOp.queue ("m1") ("u") 1000, CMOp.queue ("m2") ("u") 1000]) :=
  fun h => absurd (h ("u")) (by decide)

/-- C6 witness: a concrete valid trace (two distinct users pair up, a
no-op removal, then the match is torn down). -/
theorem C6_registry_disjoint_of_fresh_queueing_witness :
    userDisjoint
      (execOps [CMOp.queue ("m1") ("u1") 1000, CMOp.queue ("m2") ("u2") 1150,
        CMOp.remove_p ("u3"), CMOp.remove_m ("m2")]) :=
  C6_registry_disjoint_of_fresh_queueing
    [CMOp.queue ("m1") ("u1") 1000, CMOp.queue ("m2") ("u2") 1150,
      CMOp.remove_p ("u3"), CMOp.remove_m ("m2")] (by decide)
